import Mathlib

/-!
Shallow embedding of the milemoto authentication / session-trust core.

Source files embedded (TypeScript):
* `auth.service.ts` (src/unnamed/part_012): `login`, `refresh`, `changePassword`,
  `resetPasswordWithToken`, `logoutAll`.
* `auth.helpers.ts` (src/unnamed/part_020): `validateTrustedCookie`,
  `createTrustedDevice`, `revokeAllTrustedDevices`, `ttlForRole`, `backupHash`.
* `mfa.service.ts` (src/milemoto-clientside/middleware.ts, appended section):
  `disableMfa`, `verifyMfaLogin`.
* `authz.ts` (src/unnamed/part_021): `authenticateViaRefreshCookie`, `requireAuth`.

Modelling conventions:
* MySQL rows become Lean structures; a table is a `List` of rows; `SELECT ... LIMIT 1`
  is `List.find?`; `UPDATE ... WHERE` is `List.map` guarded by the WHERE predicate;
  `DELETE` is `List.filter`.
* Timestamps (`NOW()`, `new Date()`, `dbNow()`) are a single `now : Nat` parameter;
  TTL arithmetic `now + ttlSec` stands for `now.getTime() + ttlSec * 1000`
  (the scaling is monotone and irrelevant to every property proved here).
* Cryptographic primitives are black boxes that the code only ever compares for
  equality; they are modelled as injective string taggings: `sha256`, `backupHash`
  (HMAC), `argon2Hash`/`argon2Verify`.  JWT sign/verify, TOTP verification, the
  legacy HMAC trust-token verifier and the `ipPrefix` utility live outside the
  embedded files and are passed in as an explicit `Codec` record of functions.
* Thrown `httpError(status, code, msg)` exceptions become `Except Err` results,
  with one `Err` constructor per error `code` string.
-/

deriving instance DecidableEq for Except

/-- `'user' | 'admin'` role column. -/
inductive Role
  | user
  | admin
deriving DecidableEq, Repr

/-- Model of `sha256` from `utils/crypto.ts`: an injective digest, compared only
for equality by the embedded code. -/
def sha256 (s : String) : String := "sha256$" ++ s

/-- Model of `backupHash` from `auth.helpers.ts` (HMAC-SHA256 keyed by
`BACKUP_CODE_HMAC_SECRET`): an injective digest with a range disjoint from
`sha256`. -/
def backupHash (code : String) : String := "hmac$" ++ code

/-- Model of `argon2.hash`: deterministic injective tagging (the code only ever
checks a password against a stored hash via `argon2.verify`). -/
def argon2Hash (pw : String) : String := "argon2$" ++ pw

/-- Model of `argon2.verify(storedHash, password)`. -/
def argon2Verify (storedHash pw : String) : Bool := storedHash == argon2Hash pw

/-- `users` table row (columns used by the embedded functions). -/
structure UserRow where
  id : String
  full_name : String
  email : String
  phone : Option String
  password_hash : String
  role : Role
  status : String
  mfa_enabled : Bool
  mfa_secret_enc : Option String
  email_verified_at : Option Nat
deriving DecidableEq, Repr

/-- `sessions` table row. -/
structure SessionRow where
  id : String
  user_id : String
  refresh_hash : String
  user_agent : Option String
  ip : Option String
  remember : Bool
  expires_at : Nat
  revoked_at : Option Nat
  replaced_by : Option String
deriving DecidableEq, Repr

/-- `trusted_devices` table row. -/
structure TrustedDeviceRow where
  id : String
  user_id : String
  token_hash : String
  fingerprint : Option String
  user_agent : Option String
  ip : Option String
  created_at : Nat
  last_used_at : Option Nat
  expires_at : Nat
  revoked_at : Option Nat
deriving DecidableEq, Repr

/-- `mfa_backup_codes` table row. -/
structure BackupCodeRow where
  id : Nat
  user_id : String
  code_hash : String
  used_at : Option Nat
deriving DecidableEq, Repr

/-- `mfa_login_challenges` table row. -/
structure MfaLoginChallengeRow where
  id : String
  user_id : String
  remember : Bool
  user_agent : Option String
  ip : Option String
  expires_at : Nat
  consumed_at : Option Nat
deriving DecidableEq, Repr

/-- `password_resets` table row. -/
structure PasswordResetRow where
  id : Nat
  user_id : String
  token_hash : String
  expires_at : Nat
  used_at : Option Nat
deriving DecidableEq, Repr

/-- The relational store (the tables touched by the embedded functions). -/
structure DB where
  users : List UserRow
  sessions : List SessionRow
  trusted_devices : List TrustedDeviceRow
  backup_codes : List BackupCodeRow
  mfa_login_challenges : List MfaLoginChallengeRow
  password_resets : List PasswordResetRow
deriving DecidableEq, Repr

/-- Deployment configuration (`env.*` constants read by the embedded code). -/
structure Env where
  USER_REFRESH_TOKEN_TTL_SEC : Nat
  USER_SESSION_REFRESH_TTL_SEC : Nat
  ADMIN_REFRESH_TOKEN_TTL_SEC : Nat
  ADMIN_SESSION_REFRESH_TTL_SEC : Nat
  MFA_LOGIN_TTL_SEC : Nat
  TRUSTED_DEVICE_TTL_DAYS : Nat
deriving DecidableEq, Repr

/-- Mutable runtime feature flags (`config/runtime.ts`), read at call time. -/
structure Flags where
  trustedDeviceFpEnforceAll : Bool
deriving DecidableEq, Repr

/-- Refresh-token claims recovered by `verifyRefresh`. -/
structure RefreshClaims where
  sub : String
  sid : String
deriving DecidableEq, Repr

/-- Payload of the legacy HMAC-signed trusted-device token. -/
structure LegacyTrustPayload where
  sub : String
  exp : Nat
deriving DecidableEq, Repr

/-- Black-box collaborators of the embedded code: JWT codec, TOTP verifier,
secret decryption, the legacy trust-token verifier and the `ipPrefix` utility.
`verifyRefresh = none` models the verifier throwing on a bad token. -/
structure Codec where
  verifyRefresh : String → Option RefreshClaims
  signRefresh : String → String → Nat → String
  signAccess : String → Role → String
  totpOk : String → String → Bool
  decryptFromBlob : String → String
  legacyVerify : String → Option LegacyTrustPayload
  ipPfx : Option String → String

/-- `ttlForRole(role, remember)` from `auth.helpers.ts`. -/
def ttlForRole (env : Env) (role : Role) (remember : Bool) : Nat :=
  if role = Role.admin then
    if remember then env.ADMIN_REFRESH_TOKEN_TTL_SEC else env.ADMIN_SESSION_REFRESH_TTL_SEC
  else
    if remember then env.USER_REFRESH_TOKEN_TTL_SEC else env.USER_SESSION_REFRESH_TTL_SEC

/-- Split a character list at a separator (auxiliary for `splitOnChar`). -/
def splitCharsAux (sep : Char) : List Char → List Char → List (List Char)
  | [], acc => [acc.reverse]
  | c :: cs, acc =>
    if c = sep then acc.reverse :: splitCharsAux sep cs []
    else splitCharsAux sep cs (c :: acc)

/-- JavaScript `s.split(sep)` for a one-character separator (kernel-reducible
counterpart of `String.splitOn`). -/
def splitOnChar (sep : Char) (s : String) : List String :=
  (splitCharsAux sep s.toList []).map String.mk

/-- JavaScript `s.toLowerCase()` (kernel-reducible counterpart of
`String.toLower`). -/
def lowerStr (s : String) : String := String.mk (s.toList.map Char.toLower)

/-- JavaScript `s.toUpperCase()`. -/
def upperStr (s : String) : String := String.mk (s.toList.map Char.toUpper)

/-- JavaScript `s.trim()`. -/
def trimStr (s : String) : String :=
  String.mk (((s.toList.dropWhile Char.isWhitespace).reverse.dropWhile Char.isWhitespace).reverse)

/-- JavaScript `s.slice(0, n)`. -/
def takeStr (s : String) (n : Nat) : String := String.mk (s.toList.take n)

/-- JavaScript `s.slice(n)`. -/
def dropStr (s : String) (n : Nat) : String := String.mk (s.toList.drop n)

/-- The `/^\d\x7b6\x7d$/` test guarding the TOTP branch. -/
def isSixDigits (code : String) : Bool :=
  code.length == 6 && code.toList.all Char.isDigit

/-- `UPDATE sessions SET revoked_at = NOW() WHERE id = ?`. -/
def revokeSessionById (sessions : List SessionRow) (sid : String) (now : Nat) :
    List SessionRow :=
  sessions.map fun s => if s.id == sid then { s with revoked_at := some now } else s

/-- `UPDATE sessions SET revoked_at = NOW() WHERE user_id = ?` (no
`revoked_at IS NULL` filter in `changePassword` / `resetPasswordWithToken`). -/
def revokeSessionsOfUser (sessions : List SessionRow) (userId : String) (now : Nat) :
    List SessionRow :=
  sessions.map fun s => if s.user_id == userId then { s with revoked_at := some now } else s

/-- `revokeAllTrustedDevices` from `auth.helpers.ts`:
`UPDATE trusted_devices SET revoked_at = NOW() WHERE user_id = ? AND revoked_at IS NULL`. -/
def revokeAllTrustedDevices (devices : List TrustedDeviceRow) (userId : String) (now : Nat) :
    List TrustedDeviceRow :=
  devices.map fun d =>
    if d.user_id == userId && d.revoked_at == none then { d with revoked_at := some now } else d

/-- Error codes thrown (via `httpError`) by the embedded functions. -/
inductive Err
  | NoRefresh
  | InvalidSession
  | TokenReuse
  | UserNotFound
  | InvalidCredentials
  | EmailNotVerified
  | InvalidChallenge
  | ChallengeExpired
  | InvalidCode
  | MfaMisconfigured
  | MfaNotEnabled
  | InvalidPassword
  | PasswordReuse
  | InvalidToken
  | JwtVerifyFailed
deriving DecidableEq, Repr

/-- Successful result of `refresh`. -/
structure RefreshOk where
  accessToken : String
  newSid : String
  newRefresh : String
deriving DecidableEq, Repr

/-- `refresh(req, res)` from `auth.service.ts` lines 216-267.  `cookie` is
`req.cookies[env.REFRESH_COOKIE_NAME]`; `newSid` stands for the freshly
generated `ulid()`; the returned `DB` is the state after all writes. -/
def refresh (c : Codec) (env : Env) (now : Nat) (newSid : String)
    (cookie : Option String) (ua ip : Option String) (db : DB) :
    Except Err RefreshOk × DB :=
  match cookie with
  | none => (.error .NoRefresh, db)
  | some token =>
    match c.verifyRefresh token with
    | none => (.error .JwtVerifyFailed, db)
    | some cl =>
      match db.sessions.find? (fun s => s.id == cl.sid && s.user_id == cl.sub) with
      | none => (.error .InvalidSession, db)
      | some s =>
        if s.revoked_at.isSome || s.expires_at < now then
          (.error .InvalidSession, db)
        else if sha256 token != s.refresh_hash then
          (.error .TokenReuse, { db with sessions := revokeSessionById db.sessions cl.sid now })
        else
          match db.users.find? (fun u => u.id == cl.sub) with
          | none => (.error .UserNotFound, db)
          | some u =>
            let role := u.role
            let remember := s.remember
            let ttlSec := ttlForRole env role remember
            let newRefresh := c.signRefresh cl.sub newSid ttlSec
            let newHash := sha256 newRefresh
            let revoked := db.sessions.map fun r =>
              if r.id == cl.sid then { r with revoked_at := some now, replaced_by := some newSid }
              else r
            let newRow : SessionRow :=
              { id := newSid, user_id := cl.sub, refresh_hash := newHash, user_agent := ua,
                ip := ip, remember := remember, expires_at := now + ttlSec,
                revoked_at := none, replaced_by := none }
            (.ok { accessToken := c.signAccess cl.sub role, newSid := newSid,
                   newRefresh := newRefresh },
             { db with sessions := revoked ++ [newRow] })

/-- The `raw.split('.')` destructuring `const [id, token] = raw.split('.')`
followed by the `if (id && token)` truthiness guard in `validateTrustedCookie`. -/
def parseIdToken (raw : String) : Option (String × String) :=
  match splitOnChar '.' raw with
  | p0 :: p1 :: _ => if p0 != "" && p1 != "" then some (p0, p1) else none
  | _ => none

/-- `validateTrustedCookie(req, userId, role)` from `auth.helpers.ts` lines
191-294.  `cookie` is `req.cookies?.mm_trusted`; `ua`/`ip` come from the
request; the returned `DB` reflects the `last_used_at` touch on success
(the code fires it with `void`, i.e. without awaiting; its effect on the
store is modelled as applied). -/
def validateTrustedCookie (c : Codec) (flags : Flags) (now : Nat)
    (cookie : Option String) (ua ip : Option String)
    (userId : String) (role : Option Role) (db : DB) : Bool × DB :=
  let raw := cookie.getD ""
  if raw == "" then (false, db)
  else
    match parseIdToken raw with
    | some (id, token) =>
      match db.trusted_devices.find? (fun d => d.id == id) with
      | none => (false, db)
      | some rec =>
        if rec.user_id != userId then (false, db)
        else if rec.revoked_at.isSome then (false, db)
        else if rec.expires_at ≤ now then (false, db)
        else if sha256 token != rec.token_hash then (false, db)
        else
          let needFp := role == some Role.admin || flags.trustedDeviceFpEnforceAll
          let fpFail :=
            match rec.fingerprint with
            | some fp => needFp && (sha256 ((ua.getD "") ++ "|" ++ c.ipPfx ip) != fp)
            | none => false
          if fpFail then (false, db)
          else
            (true,
             { db with trusted_devices := db.trusted_devices.map fun d =>
                 if d.id == id then { d with last_used_at := some now } else d })
    | none =>
      match c.legacyVerify raw with
      | some p => if p.sub == userId && now < p.exp then (true, db) else (false, db)
      | none => (false, db)

/-- `createTrustedDevice(req, res, userId)` from `auth.helpers.ts` lines
296-326.  `devId`/`devToken` stand for the freshly generated `ulid()` and
random token. -/
def createTrustedDevice (c : Codec) (env : Env) (now : Nat)
    (devId devToken : String) (ua ip : Option String) (userId : String) (db : DB) : DB :=
  let fp := sha256 ((ua.getD "") ++ "|" ++ c.ipPfx ip)
  let exp := now + env.TRUSTED_DEVICE_TTL_DAYS * 24 * 60 * 60
  { db with trusted_devices := db.trusted_devices ++
      [{ id := devId, user_id := userId, token_hash := sha256 devToken, fingerprint := some fp,
         user_agent := ua, ip := ip, created_at := now, last_used_at := none,
         expires_at := exp, revoked_at := none }] }

/-- User payload returned by `login` / `verifyMfaLogin`. -/
structure UserDto where
  id : String
  fullName : String
  email : String
  phone : Option String
  role : Role
  mfaEnabled : Bool
deriving DecidableEq, Repr

/-- Result of a successful `login` call. -/
inductive LoginOut
  | tokens (accessToken : String) (user : UserDto)
  | mfaChallenge (challengeId : String) (expiresAt : Nat)
deriving DecidableEq, Repr

/-- `login(data, req, res)` from `auth.service.ts` lines 76-214.  `sid` stands
for the `ulid()` generated for a direct session, `pendingId` for the `ulid()`
of an MFA login challenge; `trustCookie` is the `mm_trusted` cookie. -/
def login (c : Codec) (env : Env) (flags : Flags) (now : Nat)
    (sid pendingId : String) (email password : String) (remember : Bool)
    (trustCookie : Option String) (ua ip : Option String) (db : DB) :
    Except Err LoginOut × DB :=
  match db.users.find? (fun u => u.email == lowerStr email) with
  | none => (.error .InvalidCredentials, db)
  | some u =>
    if u.status != "active" then (.error .InvalidCredentials, db)
    else if !(argon2Verify u.password_hash password) then (.error .InvalidCredentials, db)
    else if u.email_verified_at.isNone then (.error .EmailNotVerified, db)
    else
      let dto : UserDto :=
        { id := u.id, fullName := u.full_name, email := u.email, phone := u.phone,
          role := u.role, mfaEnabled := u.mfa_enabled }
      if u.mfa_enabled then
        let (isTrusted, db1) := validateTrustedCookie c flags now trustCookie ua ip u.id (some u.role) db
        if isTrusted then
          let ttlSec := ttlForRole env u.role remember
          let refreshTok := c.signRefresh u.id sid ttlSec
          let row : SessionRow :=
            { id := sid, user_id := u.id, refresh_hash := sha256 refreshTok, user_agent := ua,
              ip := ip, remember := remember, expires_at := now + ttlSec,
              revoked_at := none, replaced_by := none }
          (.ok (.tokens (c.signAccess u.id u.role) dto),
           { db1 with sessions := db1.sessions ++ [row] })
        else
          let exp := now + env.MFA_LOGIN_TTL_SEC
          let ch : MfaLoginChallengeRow :=
            { id := pendingId, user_id := u.id, remember := remember, user_agent := ua,
              ip := ip, expires_at := exp, consumed_at := none }
          (.ok (.mfaChallenge pendingId exp),
           { db1 with mfa_login_challenges := db1.mfa_login_challenges ++ [ch] })
      else
        let ttlSec := ttlForRole env u.role remember
        let refreshTok := c.signRefresh u.id sid ttlSec
        let row : SessionRow :=
          { id := sid, user_id := u.id, refresh_hash := sha256 refreshTok, user_agent := ua,
            ip := ip, remember := remember, expires_at := now + ttlSec,
            revoked_at := none, replaced_by := none }
        (.ok (.tokens (c.signAccess u.id u.role) dto),
         { db with sessions := db.sessions ++ [row] })

/-- The TOTP branch of `verifyMfaLogin` (lines 509-513) and `disableMfa`
(lines 425-429): `ok` after the six-digit test, `MfaMisconfigured` when the
code is six digits but no encrypted secret is stored. -/
def totpPath (c : Codec) (code : String) (secretEnc : Option String) : Except Err Bool :=
  if isSixDigits code then
    match secretEnc with
    | none => .error .MfaMisconfigured
    | some enc => .ok (c.totpOk code (c.decryptFromBlob enc))
  else
    .ok false

/-- Mark one backup-code row used:
`UPDATE mfa_backup_codes SET used_at = NOW() WHERE id = ?`. -/
def consumeBackupCode (codes : List BackupCodeRow) (rowId : Nat) (now : Nat) :
    List BackupCodeRow :=
  codes.map fun b => if b.id == rowId then { b with used_at := some now } else b

/-- The single-candidate backup-code lookup of `verifyMfaLogin` (lines 515-523):
`backupHash(code.toUpperCase().trim())` matched against unused rows. -/
def findUnusedBackupCode (codes : List BackupCodeRow) (userId h : String) :
    Option BackupCodeRow :=
  codes.find? fun b => b.user_id == userId && b.code_hash == h && b.used_at == none

/-- `verifyMfaLogin(challengeId, code, rememberDevice, req, res)` from
`mfa.service.ts` lines 485-567.  `sid` stands for the generated session
`ulid()`; `devId`/`devToken` for the trusted-device id/token generated when
`rememberDevice` is set. -/
def verifyMfaLogin (c : Codec) (env : Env) (now : Nat)
    (sid devId devToken : String) (challengeId code : String) (rememberDevice : Bool)
    (ua ip : Option String) (db : DB) :
    Except Err (String × UserDto) × DB :=
  match db.mfa_login_challenges.find? (fun ch => ch.id == challengeId) with
  | none => (.error .InvalidChallenge, db)
  | some ch =>
    match db.users.find? (fun u => u.id == ch.user_id) with
    | none => (.error .InvalidChallenge, db)
    | some u =>
      if ch.consumed_at.isSome then (.error .InvalidChallenge, db)
      else if ch.expires_at < now then (.error .ChallengeExpired, db)
      else
        match totpPath c code u.mfa_secret_enc with
        | .error e => (.error e, db)
        | .ok totpHit =>
          let h := backupHash (trimStr (upperStr code))
          let hit := findUnusedBackupCode db.backup_codes u.id h
          let ok := totpHit || hit.isSome
          let db1 :=
            if totpHit then db
            else
              match hit with
              | some bc => { db with backup_codes := consumeBackupCode db.backup_codes bc.id now }
              | none => db
          if !ok then (.error .InvalidCode, db1)
          else
            let consume := fun (r : MfaLoginChallengeRow) =>
              if r.id == challengeId then { r with consumed_at := some now } else r
            let db2 := { db1 with mfa_login_challenges := db1.mfa_login_challenges.map consume }
            let ttlSec := ttlForRole env u.role ch.remember
            let refreshTok := c.signRefresh u.id sid ttlSec
            let row : SessionRow :=
              { id := sid, user_id := u.id, refresh_hash := sha256 refreshTok, user_agent := ua,
                ip := ip, remember := ch.remember, expires_at := now + ttlSec,
                revoked_at := none, replaced_by := none }
            let db3 := { db2 with sessions := db2.sessions ++ [row] }
            let db4 := if rememberDevice then createTrustedDevice c env now devId devToken ua ip u.id db3
                       else db3
            let dto : UserDto :=
              { id := u.id, fullName := u.full_name, email := u.email, phone := u.phone,
                role := u.role, mfaEnabled := true }
            (.ok (c.signAccess u.id u.role, dto), db4)

/-- The dual-candidate backup-code scan of `disableMfa` (lines 431-445): the
input is uppercased/trimmed, a hyphenated variant is derived, and the first
candidate hash with an unused row wins. -/
def disableMfaBackupLookup (codes : List BackupCodeRow) (userId code : String) :
    Option BackupCodeRow :=
  let rawInput := trimStr (upperStr code)
  let pretty :=
    if rawInput.length > 4 then takeStr rawInput 4 ++ "-" ++ dropStr rawInput 4 else rawInput
  [backupHash rawInput, backupHash pretty].findSome? fun h =>
    findUnusedBackupCode codes userId h

/-- `disableMfa(userId, password, code)` from `mfa.service.ts` lines 412-460. -/
def disableMfa (c : Codec) (now : Nat) (userId password code : String) (db : DB) :
    Except Err Unit × DB :=
  match db.users.find? (fun u => u.id == userId) with
  | none => (.error .UserNotFound, db)
  | some u =>
    if !u.mfa_enabled then (.error .MfaNotEnabled, db)
    else if !(argon2Verify u.password_hash password) then (.error .InvalidPassword, db)
    else
      match totpPath c code u.mfa_secret_enc with
      | .error e => (.error e, db)
      | .ok totpHit =>
        let hit := if totpHit then none else disableMfaBackupLookup db.backup_codes userId code
        let ok := totpHit || hit.isSome
        let db1 :=
          match hit with
          | some bc => { db with backup_codes := consumeBackupCode db.backup_codes bc.id now }
          | none => db
        if !ok then (.error .InvalidCode, db1)
        else
          let db2 := { db1 with users := db1.users.map fun (r : UserRow) =>
                         if r.id == userId then { r with mfa_enabled := false, mfa_secret_enc := none }
                         else r }
          let db3 := { db2 with backup_codes := db2.backup_codes.filter fun b => b.user_id != userId }
          (.ok (), { db3 with trusted_devices := revokeAllTrustedDevices db3.trusted_devices userId now })

/-- `changePassword(userId, oldPassword, newPassword)` from `auth.service.ts`
lines 420-449. -/
def changePassword (now : Nat) (userId oldPassword newPassword : String) (db : DB) :
    Except Err Unit × DB :=
  match db.users.find? (fun u => u.id == userId) with
  | none => (.error .UserNotFound, db)
  | some u =>
    if u.password_hash == "" then (.error .UserNotFound, db)
    else if !(argon2Verify u.password_hash oldPassword) then (.error .InvalidPassword, db)
    else if argon2Verify u.password_hash newPassword then (.error .PasswordReuse, db)
    else
      let newHash := argon2Hash newPassword
      let db1 := { db with users := db.users.map fun (r : UserRow) =>
                     if r.id == userId then { r with password_hash := newHash } else r }
      let db2 := { db1 with sessions := revokeSessionsOfUser db1.sessions userId now }
      (.ok (), { db2 with trusted_devices := revokeAllTrustedDevices db2.trusted_devices userId now })

/-- `resetPasswordWithToken(token, newPassword)` from `auth.service.ts` lines
557-594. -/
def resetPasswordWithToken (now : Nat) (token newPassword : String) (db : DB) :
    Except Err Unit × DB :=
  let h := sha256 token
  match db.password_resets.find?
      (fun r => r.token_hash == h && r.used_at == none && now < r.expires_at) with
  | none => (.error .InvalidToken, db)
  | some r =>
    let existing := db.users.find? (fun u => u.id == r.user_id)
    let reuse :=
      match existing with
      | some u => u.password_hash != "" && argon2Verify u.password_hash newPassword
      | none => false
    if reuse then (.error .PasswordReuse, db)
    else
      let pwHash := argon2Hash newPassword
      let db1 := { db with users := db.users.map fun (x : UserRow) =>
                     if x.id == r.user_id then { x with password_hash := pwHash } else x }
      let db2 := { db1 with password_resets := db1.password_resets.map fun (x : PasswordResetRow) =>
                     if x.id == r.id then { x with used_at := some now } else x }
      let db3 := { db2 with sessions := revokeSessionsOfUser db2.sessions r.user_id now }
      (.ok (), { db3 with trusted_devices := revokeAllTrustedDevices db3.trusted_devices r.user_id now })

/-- Caller identity attached by the Authorization Gate. -/
structure Identity where
  id : String
  role : Role
deriving DecidableEq, Repr

/-- `authenticateViaRefreshCookie(req)` from `authz.ts` lines 19-47.  `cookie`
is the refresh cookie; `.error ()` models `verifyRefresh` throwing (the
exception propagates to `requireAuth`'s catch). -/
def authenticateViaRefreshCookie (c : Codec) (now : Nat) (cookie : Option String) (db : DB) :
    Except Unit (Option Identity) × DB :=
  match cookie with
  | none => (.ok none, db)
  | some token =>
    match c.verifyRefresh token with
    | none => (.error (), db)
    | some cl =>
      match db.sessions.find? (fun s => s.id == cl.sid && s.user_id == cl.sub) with
      | none => (.ok none, db)
      | some s =>
        if s.revoked_at.isSome || s.expires_at < now || sha256 token != s.refresh_hash then
          if sha256 token != s.refresh_hash then
            (.ok none, { db with sessions := revokeSessionById db.sessions cl.sid now })
          else
            (.ok none, db)
        else
          match db.users.find? (fun u => u.id == cl.sub) with
          | none => (.ok none, db)
          | some u => (.ok (some { id := cl.sub, role := u.role }), db)

/-- Outcome of the `requireAuth` middleware (`authz.ts` lines 49-69). -/
inductive AuthOutcome
  | authed (user : Identity)
  | unauthorized
  | passthrough
deriving DecidableEq, Repr

/-- Model of `verifyAccess` results for `requireAuth`: the bearer branch.  The
access-token verifier is a black box; it is supplied as a function argument. -/
def requireAuth (c : Codec) (verifyAccess : String → Option Identity) (now : Nat)
    (authzHeader : Option String) (cookie : Option String) (db : DB) :
    AuthOutcome × DB :=
  match authzHeader with
  | some h =>
    if "Bearer ".toList.isPrefixOf h.toList then
      match verifyAccess (dropStr h 7) with
      | some u => (.authed u, db)
      | none => (.unauthorized, db)
    else
      match authenticateViaRefreshCookie c now cookie db with
      | (.ok (some u), db1) => (.authed u, db1)
      | (.ok none, db1) => (.unauthorized, db1)
      | (.error _, db1) => (.passthrough, db1)
  | none =>
    match authenticateViaRefreshCookie c now cookie db with
    | (.ok (some u), db1) => (.authed u, db1)
    | (.ok none, db1) => (.unauthorized, db1)
    | (.error _, db1) => (.passthrough, db1)

/-- Number of non-revoked sessions a user holds. -/
def activeSessionCount (db : DB) (userId : String) : Nat :=
  (db.sessions.filter fun s => s.user_id == userId && s.revoked_at == none).length

/-- Number of non-revoked trusted devices a user holds. -/
def activeTrustedDeviceCount (db : DB) (userId : String) : Nat :=
  (db.trusted_devices.filter fun d => d.user_id == userId && d.revoked_at == none).length

/-- Concrete JWT codec for witnesses: refresh tokens are `tok:<sub>:<sid>`,
parsed back by `verifyRefresh`; TOTP always fails (witnesses exercise the
backup-code paths); no legacy trust tokens. -/
def testCodec : Codec where
  verifyRefresh := fun t =>
    if t == "tok:U1:S0" then some { sub := "U1", sid := "S0" }
    else if t == "tok:U1:S1" then some { sub := "U1", sid := "S1" }
    else if t == "tok:U1:S2" then some { sub := "U1", sid := "S2" }
    else if t == "tok:U2:S7" then some { sub := "U2", sid := "S7" }
    else if t == "stolen:U2:S7" then some { sub := "U2", sid := "S7" }
    else none
  signRefresh := fun sub sid _ => "tok:" ++ sub ++ ":" ++ sid
  signAccess := fun sub r => "acc:" ++ sub ++ (if r = Role.admin then ":admin" else ":user")
  totpOk := fun _ _ => false
  decryptFromBlob := fun s => s
  legacyVerify := fun _ => none
  ipPfx := fun o => o.getD ""

/-- Concrete deployment configuration for witnesses. -/
def testEnv : Env where
  USER_REFRESH_TOKEN_TTL_SEC := 1000
  USER_SESSION_REFRESH_TTL_SEC := 100
  ADMIN_REFRESH_TOKEN_TTL_SEC := 500
  ADMIN_SESSION_REFRESH_TTL_SEC := 50
  MFA_LOGIN_TTL_SEC := 300
  TRUSTED_DEVICE_TTL_DAYS := 30

/-- C2: for a single `refresh` call whose presented token decodes to
`(sessionId, userId)`: an absent, revoked or expired session row fails with
`InvalidSession` and leaves the store unchanged; a live row whose stored hash
differs from the presented token's hash is revoked and the call fails with
`TokenReuse`; a live row with a matching hash is revoked with `replaced_by`
set to the freshly generated session id, a new session row with TTL
`ttlForRole(role, remember)` is inserted, and a new access token is issued. -/
theorem refresh_single_call_spec
    (c : Codec) (env : Env) (now : Nat) (newSid token : String)
    (ua ip : Option String) (db : DB) (cl : RefreshClaims)
    (hdec : c.verifyRefresh token = some cl) :
    (db.sessions.find? (fun s => s.id == cl.sid && s.user_id == cl.sub) = none →
      refresh c env now newSid (some token) ua ip db = (.error .InvalidSession, db)) ∧
    (∀ s, db.sessions.find? (fun s => s.id == cl.sid && s.user_id == cl.sub) = some s →
      (s.revoked_at.isSome ∨ s.expires_at < now) →
      refresh c env now newSid (some token) ua ip db = (.error .InvalidSession, db)) ∧
    (∀ s, db.sessions.find? (fun s => s.id == cl.sid && s.user_id == cl.sub) = some s →
      s.revoked_at = none → now ≤ s.expires_at → sha256 token ≠ s.refresh_hash →
      refresh c env now newSid (some token) ua ip db =
        (.error .TokenReuse, { db with sessions := revokeSessionById db.sessions cl.sid now })) ∧
    (∀ s u, db.sessions.find? (fun s => s.id == cl.sid && s.user_id == cl.sub) = some s →
      s.revoked_at = none → now ≤ s.expires_at → sha256 token = s.refresh_hash →
      db.users.find? (fun x => x.id == cl.sub) = some u →
      refresh c env now newSid (some token) ua ip db =
        (.ok { accessToken := c.signAccess cl.sub u.role, newSid := newSid,
               newRefresh := c.signRefresh cl.sub newSid (ttlForRole env u.role s.remember) },
         { db with sessions :=
             (db.sessions.map fun r =>
               if r.id == cl.sid then { r with revoked_at := some now, replaced_by := some newSid }
               else r) ++
             [{ id := newSid, user_id := cl.sub,
                refresh_hash := sha256 (c.signRefresh cl.sub newSid (ttlForRole env u.role s.remember)),
                user_agent := ua, ip := ip, remember := s.remember,
                expires_at := now + ttlForRole env u.role s.remember,
                revoked_at := none, replaced_by := none }] })) := by
  refine ⟨?_, ?_, ?_, ?_⟩
  · intro hfind
    simp [refresh, hdec, hfind]
  · intro s hfind hbad
    rcases hbad with hrev | hexp
    · simp [refresh, hdec, hfind, hrev]
    · simp [refresh, hdec, hfind, hexp]
  · intro s hfind hrev hle hne
    simp [refresh, hdec, hfind, hrev, Nat.not_lt.mpr hle, hne]
  · intro s u hfind hrev hle heq huser
    simp [refresh, hdec, hfind, hrev, Nat.not_lt.mpr hle, heq, huser]

/-- User fixture for witnesses. -/
def wUser : UserRow where
  id := "U1"
  full_name := "Ann Example"
  email := "ann@example.com"
  phone := none
  password_hash := argon2Hash "correct-horse"
  role := Role.user
  status := "active"
  mfa_enabled := false
  mfa_secret_enc := none
  email_verified_at := some 1

/-- Session fixture: live session `S0` for `wUser`, bound to token `tok:U1:S0`. -/
def wSession : SessionRow where
  id := "S0"
  user_id := "U1"
  refresh_hash := sha256 "tok:U1:S0"
  user_agent := none
  ip := none
  remember := true
  expires_at := 5000
  revoked_at := none
  replaced_by := none

/-- Store fixture: one user, one live session. -/
def wDB : DB where
  users := [wUser]
  sessions := [wSession]
  trusted_devices := []
  backup_codes := []
  mfa_login_challenges := []
  password_resets := []

/-- Witness for the C2 theorem: the rotation branch evaluated at a concrete
live session. -/
theorem refresh_single_call_spec_witness :
    refresh testCodec testEnv 100 "S1" (some "tok:U1:S0") none none wDB =
      (.ok { accessToken := testCodec.signAccess "U1" wUser.role, newSid := "S1",
             newRefresh := testCodec.signRefresh "U1" "S1"
               (ttlForRole testEnv wUser.role wSession.remember) },
       { wDB with sessions :=
           (wDB.sessions.map fun r =>
             if r.id == "S0" then { r with revoked_at := some 100, replaced_by := some "S1" }
             else r) ++
           [{ id := "S1", user_id := "U1",
              refresh_hash := sha256 (testCodec.signRefresh "U1" "S1"
                (ttlForRole testEnv wUser.role wSession.remember)),
              user_agent := none, ip := none, remember := wSession.remember,
              expires_at := 100 + ttlForRole testEnv wUser.role wSession.remember,
              revoked_at := none, replaced_by := none }] }) :=
  (refresh_single_call_spec testCodec testEnv 100 "S1" "tok:U1:S0" none none wDB
      { sub := "U1", sid := "S0" } (by decide)).2.2.2 wSession wUser
    (by decide) (by decide) (by decide) (by decide) (by decide)

/-- The store after rotating `tok:U1:S0` into session `S1` at time 100. -/
def chainDb1 : DB := (refresh testCodec testEnv 100 "S1" (some "tok:U1:S0") none none wDB).2

/-- C1 counterexample: after rotating `T0 = tok:U1:S0` to `T1 = tok:U1:S1`,
replaying `T0` yields `InvalidSession` — not `TokenReuse` — with no state
change; the chain's head session `S1` is still non-revoked and the legitimate
client's `T1` still rotates successfully, so the chain is not dead. -/
theorem rotation_chain_replay_counterexample :
    refresh testCodec testEnv 200 "S2" (some "tok:U1:S0") none none chainDb1 =
      (.error .InvalidSession, chainDb1) ∧
    (chainDb1.sessions.find? (fun s => s.id == "S1")).map SessionRow.revoked_at = some none ∧
    (refresh testCodec testEnv 300 "S2" (some "tok:U1:S1") none none chainDb1).1 =
      .ok { accessToken := "acc:U1:user", newSid := "S2", newRefresh := "tok:U1:S2" } := by
  decide

/-- C1 amended: after a successful rotation of a live session, replaying the
superseded token hits its now-revoked row and fails with `InvalidSession`,
leaving the store untouched — it does not yield `TokenReuse` and does not
revoke the chain's head — and the newest token still rotates successfully, so
the legitimate client is not forced to re-login.  (`TokenReuse` with forced
revocation fires only when a presented token maps to a live row whose stored
hash differs, which a superseded token of this chain never does.) -/
theorem rotation_chain_replay_amended
    (c : Codec) (env : Env) (now now2 : Nat) (newSid newSid2 token : String)
    (ua ip ua2 ip2 : Option String) (db : DB) (cl : RefreshClaims) (s : SessionRow) (u : UserRow)
    (hdec : c.verifyRefresh token = some cl)
    (hfind : db.sessions.find? (fun r => r.id == cl.sid && r.user_id == cl.sub) = some s)
    (hrev : s.revoked_at = none) (hle : now ≤ s.expires_at)
    (heq : sha256 token = s.refresh_hash)
    (huser : db.users.find? (fun x => x.id == cl.sub) = some u)
    (hfresh : ∀ r ∈ db.sessions, r.id ≠ newSid)
    (hdec2 : c.verifyRefresh (c.signRefresh cl.sub newSid (ttlForRole env u.role s.remember)) =
      some { sub := cl.sub, sid := newSid })
    (hle2 : now2 ≤ now + ttlForRole env u.role s.remember) :
    refresh c env now2 newSid2 (some token) ua2 ip2
        (refresh c env now newSid (some token) ua ip db).2 =
      (.error .InvalidSession, (refresh c env now newSid (some token) ua ip db).2) ∧
    (refresh c env now2 newSid2
        (some (c.signRefresh cl.sub newSid (ttlForRole env u.role s.remember))) ua2 ip2
        (refresh c env now newSid (some token) ua ip db).2).1 =
      .ok { accessToken := c.signAccess cl.sub u.role, newSid := newSid2,
            newRefresh := c.signRefresh cl.sub newSid2 (ttlForRole env u.role s.remember) } := by
  have hsid : (s.id == cl.sid && s.user_id == cl.sub) = true := by
    have h := List.find?_some hfind
    simpa using h
  have hsid1 : s.id = cl.sid := by
    have h := hsid
    simp only [Bool.and_eq_true, beq_iff_eq] at h
    exact h.1
  -- the rotated store
  have hdb1 : (refresh c env now newSid (some token) ua ip db).2 =
      { db with sessions :=
          (db.sessions.map fun r =>
            if r.id == cl.sid then { r with revoked_at := some now, replaced_by := some newSid }
            else r) ++
          [{ id := newSid, user_id := cl.sub,
             refresh_hash := sha256 (c.signRefresh cl.sub newSid (ttlForRole env u.role s.remember)),
             user_agent := ua, ip := ip, remember := s.remember,
             expires_at := now + ttlForRole env u.role s.remember,
             revoked_at := none, replaced_by := none }] } := by
    simp [refresh, hdec, hfind, hrev, Nat.not_lt.mpr hle, heq, huser]
  have hgp : ∀ (g : SessionRow → SessionRow) (p : SessionRow → Bool),
      (∀ r, p (g r) = p r) → ∀ l : List SessionRow, (l.map g).find? p = (l.find? p).map g := by
    intro g p hp l
    induction l with
    | nil => rfl
    | cons a t ih =>
      by_cases hpa : p a = true
      · rw [List.map_cons, List.find?_cons_of_pos _ (by rw [hp a]; exact hpa),
          List.find?_cons_of_pos _ hpa]
        rfl
      · rw [List.map_cons, List.find?_cons_of_neg _ (by rw [hp a]; exact hpa),
          List.find?_cons_of_neg _ hpa, ih]
  constructor
  · -- replay of the superseded token
    rw [hdb1]
    have hfind1 :
        ((db.sessions.map fun r =>
            if r.id == cl.sid then { r with revoked_at := some now, replaced_by := some newSid }
            else r).find? fun r => r.id == cl.sid && r.user_id == cl.sub) =
          some { s with revoked_at := some now, replaced_by := some newSid } := by
      rw [hgp _ _ ?hp db.sessions, hfind]
      case hp =>
        intro r
        by_cases h : r.id = cl.sid
        · simp [h]
        · simp [h]
      simp [hsid1]
    have hfind2 :
        (((db.sessions.map fun (r : SessionRow) =>
            if r.id == cl.sid then { r with revoked_at := some now, replaced_by := some newSid }
            else r) ++
          [({ id := newSid, user_id := cl.sub,
              refresh_hash := sha256 (c.signRefresh cl.sub newSid (ttlForRole env u.role s.remember)),
              user_agent := ua, ip := ip, remember := s.remember,
              expires_at := now + ttlForRole env u.role s.remember,
              revoked_at := none, replaced_by := none } : SessionRow)]).find?
            fun r => r.id == cl.sid && r.user_id == cl.sub) =
          some { s with revoked_at := some now, replaced_by := some newSid } := by
      rw [List.find?_append, hfind1]
      rfl
    simp only [refresh, hdec]
    rw [hfind2]
    simp
  · -- the chain head still rotates
    rw [hdb1]
    have hnone :
        ((db.sessions.map fun r =>
            if r.id == cl.sid then { r with revoked_at := some now, replaced_by := some newSid }
            else r).find? fun r => r.id == newSid && r.user_id == cl.sub) = none := by
      rw [List.find?_eq_none]
      intro x hx
      rcases List.mem_map.mp hx with ⟨r, hr, hxe⟩
      have hid : x.id = r.id := by
        subst hxe
        by_cases h : r.id = cl.sid
        · simp [h]
        · simp [h]
      simp only [Bool.and_eq_true, beq_iff_eq, not_and]
      intro hxid
      exact absurd (hid ▸ hxid) (hfresh r hr)
    have hfindN :
        (((db.sessions.map fun (r : SessionRow) =>
            if r.id == cl.sid then { r with revoked_at := some now, replaced_by := some newSid }
            else r) ++
          [({ id := newSid, user_id := cl.sub,
              refresh_hash := sha256 (c.signRefresh cl.sub newSid (ttlForRole env u.role s.remember)),
              user_agent := ua, ip := ip, remember := s.remember,
              expires_at := now + ttlForRole env u.role s.remember,
              revoked_at := none, replaced_by := none } : SessionRow)]).find?
            fun r => r.id == newSid && r.user_id == cl.sub) =
          some ({ id := newSid, user_id := cl.sub,
                  refresh_hash := sha256 (c.signRefresh cl.sub newSid (ttlForRole env u.role s.remember)),
                  user_agent := ua, ip := ip, remember := s.remember,
                  expires_at := now + ttlForRole env u.role s.remember,
                  revoked_at := none, replaced_by := none } : SessionRow) := by
      rw [List.find?_append, hnone]
      simp [List.find?]
    simp only [refresh, hdec2]
    rw [hfindN]
    simp [Nat.not_lt.mpr hle2, huser]

/-- Witness for the amended C1 theorem at the concrete chain
`wDB --tok:U1:S0--> S1`. -/
theorem rotation_chain_replay_amended_witness :
    refresh testCodec testEnv 200 "S2" (some "tok:U1:S0") none none
        (refresh testCodec testEnv 100 "S1" (some "tok:U1:S0") none none wDB).2 =
      (.error .InvalidSession,
       (refresh testCodec testEnv 100 "S1" (some "tok:U1:S0") none none wDB).2) ∧
    (refresh testCodec testEnv 200 "S2"
        (some (testCodec.signRefresh "U1" "S1" (ttlForRole testEnv wUser.role wSession.remember)))
        none none (refresh testCodec testEnv 100 "S1" (some "tok:U1:S0") none none wDB).2).1 =
      .ok { accessToken := testCodec.signAccess "U1" wUser.role, newSid := "S2",
            newRefresh := testCodec.signRefresh "U1" "S2"
              (ttlForRole testEnv wUser.role wSession.remember) } :=
  rotation_chain_replay_amended testCodec testEnv 100 200 "S1" "S2" "tok:U1:S0" none none none none
    wDB { sub := "U1", sid := "S0" } wSession wUser (by decide) (by decide) (by decide) (by decide)
    (by decide) (by decide) (by decide) (by decide) (by decide)

/-- A failed trusted-device validation never changes the store (the only write,
the `last_used_at` touch, happens on the success path). -/
theorem validateTrustedCookie_false_frame
    (c : Codec) (flags : Flags) (now : Nat) (cookie : Option String)
    (ua ip : Option String) (userId : String) (role : Option Role) (db : DB)
    (h : (validateTrustedCookie c flags now cookie ua ip userId role db).1 = false) :
    (validateTrustedCookie c flags now cookie ua ip userId role db).2 = db := by
  unfold validateTrustedCookie at h ⊢
  dsimp only at h ⊢
  repeat' split <;> simp_all

/-- C4: for an active, email-verified user with `mfa_enabled = true` whose
trusted-device validation does not succeed, `login` with the correct password
never returns tokens: it inserts an `MfaLoginChallenge` row carrying the
login's `remember` flag and returns the second-factor-required response with
the challenge id and its expiry; no session row is created. -/
theorem mfa_login_gating
    (c : Codec) (env : Env) (flags : Flags) (now : Nat) (sid pendingId : String)
    (email password : String) (remember : Bool)
    (trustCookie ua ip : Option String) (db : DB) (u : UserRow)
    (hfind : db.users.find? (fun x => x.email == lowerStr email) = some u)
    (hact : u.status = "active")
    (hpw : argon2Verify u.password_hash password = true)
    (hver : u.email_verified_at.isNone = false)
    (hmfa : u.mfa_enabled = true)
    (htrust : (validateTrustedCookie c flags now trustCookie ua ip u.id (some u.role) db).1 = false) :
    login c env flags now sid pendingId email password remember trustCookie ua ip db =
      (.ok (.mfaChallenge pendingId (now + env.MFA_LOGIN_TTL_SEC)),
       { db with mfa_login_challenges := db.mfa_login_challenges ++
           [{ id := pendingId, user_id := u.id, remember := remember, user_agent := ua,
              ip := ip, expires_at := now + env.MFA_LOGIN_TTL_SEC, consumed_at := none }] }) := by
  have hdb1 : (validateTrustedCookie c flags now trustCookie ua ip u.id (some u.role) db).2 = db :=
    validateTrustedCookie_false_frame c flags now trustCookie ua ip u.id (some u.role) db htrust
  have hv : validateTrustedCookie c flags now trustCookie ua ip u.id (some u.role) db =
      (false, db) := by
    have hpair : validateTrustedCookie c flags now trustCookie ua ip u.id (some u.role) db =
        ((validateTrustedCookie c flags now trustCookie ua ip u.id (some u.role) db).1,
         (validateTrustedCookie c flags now trustCookie ua ip u.id (some u.role) db).2) := rfl
    rw [hpair, htrust, hdb1]
  simp [login, hfind, hact, hpw, hver, hmfa, hv]

/-- Runtime-flag fixture: fingerprint enforcement off. -/
def testFlags : Flags where
  trustedDeviceFpEnforceAll := false

/-- MFA-enabled user fixture. -/
def mUser : UserRow where
  id := "U2"
  full_name := "Bob Example"
  email := "bob@example.com"
  phone := none
  password_hash := argon2Hash "hunter2hunter2"
  role := Role.user
  status := "active"
  mfa_enabled := true
  mfa_secret_enc := some "secblob"
  email_verified_at := some 1

/-- Store fixture for the MFA flows: `mUser` with one unused backup code whose
stored hash is the raw (non-hyphenated) encoding, one live login challenge and
one live session. -/
def mDB : DB where
  users := [mUser]
  sessions := [{ id := "S7", user_id := "U2", refresh_hash := sha256 "tok:U2:S7",
                 user_agent := none, ip := none, remember := false, expires_at := 9000,
                 revoked_at := none, replaced_by := none }]
  trusted_devices := [{ id := "D7", user_id := "U2", token_hash := sha256 "devtok7",
                        fingerprint := some (sha256 "ua7|ip7"), user_agent := some "ua7",
                        ip := some "ip7", created_at := 1, last_used_at := none,
                        expires_at := 9000, revoked_at := none }]
  backup_codes := [{ id := 1, user_id := "U2", code_hash := backupHash "AAAABBBB",
                     used_at := none }]
  mfa_login_challenges := [{ id := "CH0000000001", user_id := "U2", remember := true,
                             user_agent := none, ip := none, expires_at := 500,
                             consumed_at := none }]
  password_resets := []

/-- Witness for the C4 theorem: `mUser` logs in with the correct password and
no trust cookie. -/
theorem mfa_login_gating_witness :
    login testCodec testEnv testFlags 100 "S9" "CH9" "Bob@Example.com" "hunter2hunter2" true
        none none none mDB =
      (.ok (.mfaChallenge "CH9" (100 + testEnv.MFA_LOGIN_TTL_SEC)),
       { mDB with mfa_login_challenges := mDB.mfa_login_challenges ++
           [{ id := "CH9", user_id := "U2", remember := true, user_agent := none,
              ip := none, expires_at := 100 + testEnv.MFA_LOGIN_TTL_SEC,
              consumed_at := none }] }) :=
  mfa_login_gating testCodec testEnv testFlags 100 "S9" "CH9" "Bob@Example.com"
    "hunter2hunter2" true none none none mDB mUser (by decide) (by decide) (by decide)
    (by decide) (by decide) (by decide)

/-- Disabled-account fixture. -/
def dUser : UserRow where
  id := "U3"
  full_name := "Carol Example"
  email := "carol@example.com"
  phone := none
  password_hash := argon2Hash "pw-carol-123"
  role := Role.user
  status := "disabled"
  mfa_enabled := false
  mfa_secret_enc := none
  email_verified_at := some 1

/-- Store fixture containing only the disabled user. -/
def dDB : DB where
  users := [dUser]
  sessions := []
  trusted_devices := []
  backup_codes := []
  mfa_login_challenges := []
  password_resets := []

/-- C6 counterexample: a disabled (non-active) account is rejected with the
same generic `InvalidCredentials` that an unknown email gets — not with a
distinct, non-generic error as the claim states. -/
theorem login_disabled_generic_counterexample :
    (login testCodec testEnv testFlags 100 "S1" "CH1" "carol@example.com" "pw-carol-123" false
        none none none dDB).1 = .error .InvalidCredentials ∧
    (login testCodec testEnv testFlags 100 "S1" "CH1" "missing@example.com" "pw-carol-123" false
        none none none dDB).1 = .error .InvalidCredentials := by
  decide

/-- C6 amended: `login` returns the generic `InvalidCredentials` for an
unknown email, for a wrong password, and also for a disabled (non-active)
account; only an unverified email is rejected with the distinct
`EmailNotVerified` error.  No failure path mutates the store. -/
theorem login_error_taxonomy_amended
    (c : Codec) (env : Env) (flags : Flags) (now : Nat) (sid pendingId : String)
    (email password : String) (remember : Bool)
    (trustCookie ua ip : Option String) (db : DB) :
    (db.users.find? (fun x => x.email == lowerStr email) = none →
      login c env flags now sid pendingId email password remember trustCookie ua ip db =
        (.error .InvalidCredentials, db)) ∧
    (∀ u, db.users.find? (fun x => x.email == lowerStr email) = some u →
      u.status ≠ "active" →
      login c env flags now sid pendingId email password remember trustCookie ua ip db =
        (.error .InvalidCredentials, db)) ∧
    (∀ u, db.users.find? (fun x => x.email == lowerStr email) = some u →
      u.status = "active" → argon2Verify u.password_hash password = false →
      login c env flags now sid pendingId email password remember trustCookie ua ip db =
        (.error .InvalidCredentials, db)) ∧
    (∀ u, db.users.find? (fun x => x.email == lowerStr email) = some u →
      u.status = "active" → argon2Verify u.password_hash password = true →
      u.email_verified_at = none →
      login c env flags now sid pendingId email password remember trustCookie ua ip db =
        (.error .EmailNotVerified, db) ∧ Err.EmailNotVerified ≠ Err.InvalidCredentials) := by
  refine ⟨?_, ?_, ?_, ?_⟩
  · intro hfind
    simp [login, hfind]
  · intro u hfind hst
    simp [login, hfind, hst]
  · intro u hfind hst hpw
    simp [login, hfind, hst, hpw]
  · intro u hfind hst hpw hver
    refine ⟨?_, by decide⟩
    simp [login, hfind, hst, hpw, hver]

/-- Witness for the amended C6 theorem: the disabled-account branch at `dDB`. -/
theorem login_error_taxonomy_amended_witness :
    login testCodec testEnv testFlags 100 "S1" "CH1" "carol@example.com" "wrong-password-9" false
        none none none dDB = (.error .InvalidCredentials, dDB) :=
  (login_error_taxonomy_amended testCodec testEnv testFlags 100 "S1" "CH1" "carol@example.com"
      "wrong-password-9" false none none none dDB).2.1 dUser (by decide) (by decide)

/-- After `revokeSessionsOfUser`, the user holds no non-revoked session. -/
theorem revokeSessionsOfUser_active_nil (uid : String) (now : Nat) :
    ∀ l : List SessionRow,
      (revokeSessionsOfUser l uid now).filter
        (fun s => s.user_id == uid && s.revoked_at == none) = [] := by
  intro l
  induction l with
  | nil => rfl
  | cons a t ih =>
    by_cases h : a.user_id = uid
    · simpa [revokeSessionsOfUser, List.filter_cons, h] using ih
    · simpa [revokeSessionsOfUser, List.filter_cons, h] using ih

/-- After `revokeAllTrustedDevices`, the user holds no non-revoked device. -/
theorem revokeAllTrustedDevices_active_nil (uid : String) (now : Nat) :
    ∀ l : List TrustedDeviceRow,
      (revokeAllTrustedDevices l uid now).filter
        (fun d => d.user_id == uid && d.revoked_at == none) = [] := by
  intro l
  induction l with
  | nil => rfl
  | cons a t ih =>
    by_cases h1 : a.user_id = uid
    · by_cases h2 : a.revoked_at = none
      · simpa [revokeAllTrustedDevices, List.filter_cons, h1, h2] using ih
      · simpa [revokeAllTrustedDevices, List.filter_cons, h1, h2] using ih
    · simpa [revokeAllTrustedDevices, List.filter_cons, h1] using ih

/-- C3 counterexample: `disableMfa` succeeds on `mDB` (password plus a backup
code) yet the user's live session stays non-revoked — disabling MFA does not
leave zero non-revoked sessions.  (Trusted devices are revoked, and that part
of the cascade holds.) -/
theorem security_cascade_counterexample :
    (disableMfa testCodec 200 "U2" "hunter2hunter2" "AAAABBBB" mDB).1 = .ok () ∧
    activeSessionCount (disableMfa testCodec 200 "U2" "hunter2hunter2" "AAAABBBB" mDB).2 "U2" = 1 ∧
    activeTrustedDeviceCount
      (disableMfa testCodec 200 "U2" "hunter2hunter2" "AAAABBBB" mDB).2 "U2" = 0 := by
  decide

/-- C3 amended: a successful `changePassword` and a successful
`resetPasswordWithToken` each leave the affected user with zero non-revoked
sessions and zero non-revoked trusted devices; a successful `disableMfa`
leaves zero non-revoked trusted devices (and deletes the user's backup codes)
but does not touch the sessions table, so the user's sessions stay live. -/
theorem security_cascade_amended
    (c : Codec) (now : Nat)
    (uid oldPw newPw : String) (db : DB)
    (tok newPw2 : String) (db2 : DB) (r : PasswordResetRow)
    (uid3 pw3 code3 : String) (db3 : DB)
    (hcp : (changePassword now uid oldPw newPw db).1 = .ok ())
    (hfr : db2.password_resets.find?
      (fun x => x.token_hash == sha256 tok && x.used_at == none && now < x.expires_at) = some r)
    (hrp : (resetPasswordWithToken now tok newPw2 db2).1 = .ok ())
    (hdm : (disableMfa c now uid3 pw3 code3 db3).1 = .ok ()) :
    activeSessionCount (changePassword now uid oldPw newPw db).2 uid = 0 ∧
    activeTrustedDeviceCount (changePassword now uid oldPw newPw db).2 uid = 0 ∧
    activeSessionCount (resetPasswordWithToken now tok newPw2 db2).2 r.user_id = 0 ∧
    activeTrustedDeviceCount (resetPasswordWithToken now tok newPw2 db2).2 r.user_id = 0 ∧
    activeTrustedDeviceCount (disableMfa c now uid3 pw3 code3 db3).2 uid3 = 0 ∧
    (disableMfa c now uid3 pw3 code3 db3).2.sessions = db3.sessions ∧
    (disableMfa c now uid3 pw3 code3 db3).2.backup_codes.filter
      (fun b => b.user_id == uid3) = [] := by
  have hchange :
      activeSessionCount (changePassword now uid oldPw newPw db).2 uid = 0 ∧
      activeTrustedDeviceCount (changePassword now uid oldPw newPw db).2 uid = 0 := by
    cases hf : db.users.find? (fun u => u.id == uid) with
    | none => simp [changePassword, hf] at hcp
    | some u =>
      by_cases h1 : u.password_hash = ""
      · simp [changePassword, hf, h1] at hcp
      · by_cases h2 : argon2Verify u.password_hash oldPw = true
        · by_cases h3 : argon2Verify u.password_hash newPw = true
          · simp [changePassword, hf, h1, h2, h3] at hcp
          · constructor
            · simp [changePassword, hf, h1, h2, h3, activeSessionCount,
                revokeSessionsOfUser_active_nil]
            · simp [changePassword, hf, h1, h2, h3, activeTrustedDeviceCount,
                revokeAllTrustedDevices_active_nil]
        · simp [changePassword, hf, h1, h2] at hcp
  have hreset :
      activeSessionCount (resetPasswordWithToken now tok newPw2 db2).2 r.user_id = 0 ∧
      activeTrustedDeviceCount (resetPasswordWithToken now tok newPw2 db2).2 r.user_id = 0 := by
    cases hu : db2.users.find? (fun u => u.id == r.user_id) with
    | none =>
      constructor
      · simp [resetPasswordWithToken, hfr, hu, activeSessionCount,
          revokeSessionsOfUser_active_nil]
      · simp [resetPasswordWithToken, hfr, hu, activeTrustedDeviceCount,
          revokeAllTrustedDevices_active_nil]
    | some u =>
      by_cases hreuse : (u.password_hash != "" && argon2Verify u.password_hash newPw2) = true
      · simp [resetPasswordWithToken, hfr, hu, hreuse] at hrp
      · constructor
        · simp [resetPasswordWithToken, hfr, hu, hreuse, activeSessionCount,
            revokeSessionsOfUser_active_nil]
        · simp [resetPasswordWithToken, hfr, hu, hreuse, activeTrustedDeviceCount,
            revokeAllTrustedDevices_active_nil]
  have hdisable :
      activeTrustedDeviceCount (disableMfa c now uid3 pw3 code3 db3).2 uid3 = 0 ∧
      (disableMfa c now uid3 pw3 code3 db3).2.sessions = db3.sessions ∧
      (disableMfa c now uid3 pw3 code3 db3).2.backup_codes.filter
        (fun b => b.user_id == uid3) = [] := by
    cases hf : db3.users.find? (fun u => u.id == uid3) with
    | none => simp [disableMfa, hf] at hdm
    | some u =>
      by_cases hm : u.mfa_enabled = true
      · by_cases hp : argon2Verify u.password_hash pw3 = true
        · cases ht : totpPath c code3 u.mfa_secret_enc with
          | error e => simp [disableMfa, hf, hm, hp, ht] at hdm
          | ok totpHit =>
            cases totpHit with
            | true =>
              refine ⟨?_, ?_, ?_⟩
              · simp [disableMfa, hf, hm, hp, ht, activeTrustedDeviceCount,
                  revokeAllTrustedDevices_active_nil]
              · simp [disableMfa, hf, hm, hp, ht]
              · simp [disableMfa, hf, hm, hp, ht, List.filter_filter]
            | false =>
              cases hb : disableMfaBackupLookup db3.backup_codes uid3 code3 with
              | none => simp [disableMfa, hf, hm, hp, ht, hb] at hdm
              | some bc =>
                refine ⟨?_, ?_, ?_⟩
                · simp [disableMfa, hf, hm, hp, ht, hb, activeTrustedDeviceCount,
                    revokeAllTrustedDevices_active_nil]
                · simp [disableMfa, hf, hm, hp, ht, hb]
                · simp [disableMfa, hf, hm, hp, ht, hb, List.filter_filter]
        · simp [disableMfa, hf, hm, hp] at hdm
      · simp [disableMfa, hf, hm] at hdm
  exact ⟨hchange.1, hchange.2, hreset.1, hreset.2, hdisable.1, hdisable.2.1, hdisable.2.2⟩

/-- Password-flow user fixture. -/
def pUser : UserRow where
  id := "U4"
  full_name := "Dave Example"
  email := "dave@example.com"
  phone := none
  password_hash := argon2Hash "old-password-1"
  role := Role.user
  status := "active"
  mfa_enabled := false
  mfa_secret_enc := none
  email_verified_at := some 1

/-- Store fixture for password change/reset: `pUser` with a live session, a
live trusted device and an outstanding password-reset token. -/
def pDB : DB where
  users := [pUser]
  sessions := [{ id := "S4", user_id := "U4", refresh_hash := sha256 "tok:U4:S4",
                 user_agent := none, ip := none, remember := false, expires_at := 9000,
                 revoked_at := none, replaced_by := none }]
  trusted_devices := [{ id := "D4", user_id := "U4", token_hash := sha256 "devtok4",
                        fingerprint := some (sha256 "ua4|ip4"), user_agent := some "ua4",
                        ip := some "ip4", created_at := 1, last_used_at := none,
                        expires_at := 9000, revoked_at := none }]
  backup_codes := []
  mfa_login_challenges := []
  password_resets := [{ id := 1, user_id := "U4", token_hash := sha256 "rsttok",
                        expires_at := 1000, used_at := none }]

/-- Witness for the amended C3 theorem: concrete password change, password
reset and MFA disable, each succeeding. -/
theorem security_cascade_amended_witness :
    activeSessionCount (changePassword 100 "U4" "old-password-1" "new-password-2" pDB).2 "U4" = 0 ∧
    activeTrustedDeviceCount
      (changePassword 100 "U4" "old-password-1" "new-password-2" pDB).2 "U4" = 0 ∧
    activeSessionCount (resetPasswordWithToken 100 "rsttok" "new-password-3" pDB).2 "U4" = 0 ∧
    activeTrustedDeviceCount (resetPasswordWithToken 100 "rsttok" "new-password-3" pDB).2 "U4" = 0 ∧
    activeTrustedDeviceCount (disableMfa testCodec 100 "U2" "hunter2hunter2" "AAAABBBB" mDB).2 "U2" = 0 ∧
    (disableMfa testCodec 100 "U2" "hunter2hunter2" "AAAABBBB" mDB).2.sessions = mDB.sessions ∧
    (disableMfa testCodec 100 "U2" "hunter2hunter2" "AAAABBBB" mDB).2.backup_codes.filter
      (fun b => b.user_id == "U2") = [] :=
  security_cascade_amended testCodec 100 "U4" "old-password-1" "new-password-2" pDB
    "rsttok" "new-password-3" pDB
    { id := 1, user_id := "U4", token_hash := sha256 "rsttok", expires_at := 1000, used_at := none }
    "U2" "hunter2hunter2" "AAAABBBB" mDB (by decide) (by decide) (by decide) (by decide)

/-- `consumeBackupCode` is the identity when no row carries the target id. -/
theorem consumeBackupCode_of_not_mem (i : Nat) (now : Nat) :
    ∀ l : List BackupCodeRow, (∀ b ∈ l, b.id ≠ i) → consumeBackupCode l i now = l := by
  intro l
  induction l with
  | nil => intro _; rfl
  | cons a t ih =>
    intro h
    have ha : a.id ≠ i := h a (by simp)
    have ht : ∀ b ∈ t, b.id ≠ i := fun b hb => h b (by simp [hb])
    simp [consumeBackupCode, ha, List.map]
    simpa [consumeBackupCode] using ih ht

/-- Consuming one unused backup code (with pairwise-distinct row ids)
decreases the number of unused codes by exactly one. -/
theorem consumeBackupCode_unused_count (now : Nat) :
    ∀ l : List BackupCodeRow, ∀ bc ∈ l, bc.used_at = none →
      (l.map BackupCodeRow.id).Nodup →
      ((consumeBackupCode l bc.id now).filter (fun b => b.used_at == none)).length + 1 =
        (l.filter (fun b => b.used_at == none)).length := by
  intro l
  induction l with
  | nil => intro bc h; simp at h
  | cons a t ih =>
    intro bc hmem hunused hnodup
    have hnd := hnodup
    rw [List.map_cons, List.nodup_cons] at hnd
    rcases List.mem_cons.mp hmem with hbc | hbc
    · subst hbc
      have htid : ∀ b ∈ t, b.id ≠ bc.id := by
        intro b hb hbe
        exact hnd.1 (hbe ▸ List.mem_map_of_mem BackupCodeRow.id hb)
      have hconst := consumeBackupCode_of_not_mem bc.id now t htid
      simp only [consumeBackupCode] at hconst
      simp only [beq_iff_eq] at hconst
      have hstep : consumeBackupCode (bc :: t) bc.id now =
          { bc with used_at := some now } :: t := by
        simp [consumeBackupCode, hconst]
      rw [hstep]
      simp [List.filter_cons, hunused]
    · have haid : a.id ≠ bc.id := by
        intro hbe
        exact hnd.1 (hbe ▸ List.mem_map_of_mem BackupCodeRow.id hbc)
      have hrec := ih bc hbc hunused hnd.2
      have hstep : consumeBackupCode (a :: t) bc.id now =
          a :: consumeBackupCode t bc.id now := by
        simp [consumeBackupCode, haid]
      rw [hstep]
      by_cases hau : a.used_at = none
      · simp [List.filter_cons, hau]
        omega
      · simp [List.filter_cons, hau]
        omega

/-- Like `mDB`, but the stored backup-code hash uses the human-friendly
hyphenated encoding `AAAA-BBBB`. -/
def hDB : DB where
  users := [mUser]
  sessions := mDB.sessions
  trusted_devices := mDB.trusted_devices
  backup_codes := [{ id := 1, user_id := "U2", code_hash := backupHash "AAAA-BBBB",
                     used_at := none }]
  mfa_login_challenges := mDB.mfa_login_challenges
  password_resets := []

/-- C5 counterexample: with the user's unused backup code stored under the
hyphenated encoding, `verifyMfaLogin` rejects the raw form `AAAABBBB` with
`InvalidCode` — it hashes only the single uppercased/trimmed input and never
tries the hyphenated variant — while `disableMfa`, which does try both
encodings, accepts the very same inputs. -/
theorem backup_code_dual_encoding_counterexample :
    (verifyMfaLogin testCodec testEnv 100 "S8" "D8" "dt8" "CH0000000001" "AAAABBBB" false
        none none hDB).1 = .error .InvalidCode ∧
    (disableMfa testCodec 100 "U2" "hunter2hunter2" "AAAABBBB" hDB).1 = .ok () := by
  decide

/-- C5 amended: in `verifyMfaLogin`, when the code does not verify as a TOTP,
only the single candidate `backupHash(code.toUpperCase().trim())` is matched
against the user's unused backup codes (the dual raw-plus-hyphenated matching
exists only in `disableMfa`); on a match exactly one backup code is consumed,
and on no match the call fails with `InvalidCode` leaving the store
unchanged. -/
theorem backup_code_single_encoding_amended
    (c : Codec) (env : Env) (now : Nat) (sid devId devToken challengeId code : String)
    (rememberDevice : Bool) (ua ip : Option String) (db : DB)
    (ch : MfaLoginChallengeRow) (u : UserRow)
    (hch : db.mfa_login_challenges.find? (fun x => x.id == challengeId) = some ch)
    (hu : db.users.find? (fun x => x.id == ch.user_id) = some u)
    (hcon : ch.consumed_at = none)
    (hexp : ¬ ch.expires_at < now)
    (ht : totpPath c code u.mfa_secret_enc = .ok false)
    (hnodup : (db.backup_codes.map BackupCodeRow.id).Nodup) :
    (∀ bc, findUnusedBackupCode db.backup_codes u.id (backupHash (trimStr (upperStr code))) =
        some bc →
      (verifyMfaLogin c env now sid devId devToken challengeId code rememberDevice ua ip
          db).2.backup_codes = consumeBackupCode db.backup_codes bc.id now ∧
      ((verifyMfaLogin c env now sid devId devToken challengeId code rememberDevice ua ip
          db).2.backup_codes.filter (fun b => b.used_at == none)).length + 1 =
        (db.backup_codes.filter (fun b => b.used_at == none)).length) ∧
    (findUnusedBackupCode db.backup_codes u.id (backupHash (trimStr (upperStr code))) = none →
      verifyMfaLogin c env now sid devId devToken challengeId code rememberDevice ua ip db =
        (.error .InvalidCode, db)) := by
  constructor
  · intro bc hbc
    have hmem : bc ∈ db.backup_codes := List.mem_of_find?_eq_some hbc
    have hbcu : bc.used_at = none := by
      have hp := List.find?_some hbc
      simp only [Bool.and_eq_true, beq_iff_eq] at hp
      exact hp.2
    have hfield :
        (verifyMfaLogin c env now sid devId devToken challengeId code rememberDevice ua ip
            db).2.backup_codes = consumeBackupCode db.backup_codes bc.id now := by
      cases rememberDevice with
      | false =>
        simp [verifyMfaLogin, hch, hu, hcon, hexp, ht, findUnusedBackupCode] at hbc ⊢
        simp [hbc]
        split <;> rfl
      | true =>
        simp [verifyMfaLogin, hch, hu, hcon, hexp, ht, findUnusedBackupCode,
          createTrustedDevice] at hbc ⊢
        simp [hbc]
        split <;> rfl
    refine ⟨hfield, ?_⟩
    rw [hfield]
    exact consumeBackupCode_unused_count now db.backup_codes bc hmem hbcu hnodup
  · intro hnone
    simp [verifyMfaLogin, hch, hu, hcon, hexp, ht, hnone]

/-- Witness for the amended C5 theorem: the raw-stored backup code `AAAABBBB`
is consumed exactly once by a login-time verification. -/
theorem backup_code_single_encoding_amended_witness :
    (verifyMfaLogin testCodec testEnv 100 "S8" "D8" "dt8" "CH0000000001" "AAAABBBB" false
        none none mDB).2.backup_codes =
      consumeBackupCode mDB.backup_codes 1 100 ∧
    ((verifyMfaLogin testCodec testEnv 100 "S8" "D8" "dt8" "CH0000000001" "AAAABBBB" false
        none none mDB).2.backup_codes.filter (fun b => b.used_at == none)).length + 1 =
      (mDB.backup_codes.filter (fun b => b.used_at == none)).length :=
  (backup_code_single_encoding_amended testCodec testEnv 100 "S8" "D8" "dt8" "CH0000000001"
      "AAAABBBB" false none none mDB
      { id := "CH0000000001", user_id := "U2", remember := true, user_agent := none,
        ip := none, expires_at := 500, consumed_at := none }
      mUser (by decide) (by decide) (by decide) (by decide) (by decide) (by decide)).1
    { id := 1, user_id := "U2", code_hash := backupHash "AAAABBBB", used_at := none } (by decide)

/-- The `last_used_at` touch changes no device's `revoked_at`. -/
theorem touch_preserves_revoked (l : List TrustedDeviceRow) (i : String) (now : Nat) :
    (l.map fun d => if d.id == i then { d with last_used_at := some now } else d).map
        (fun d => (d.id, d.revoked_at)) =
      l.map (fun d => (d.id, d.revoked_at)) := by
  rw [List.map_map]
  apply List.map_congr_left
  intro d _
  by_cases h : d.id = i
  · simp [h]
  · simp [h]

/-- C7: `validateTrustedCookie` returns `true` only if either the cookie
parses as `id.token` and the device row exists, belongs to the given user, is
unrevoked and unexpired, its stored hash matches the presented token, and —
whenever fingerprint enforcement applies (admin role, or the
`trustedDeviceFpEnforceAll` flag) and a fingerprint is stored — the
fingerprint recomputed from the user-agent and IP prefix equals the stored
hash; or the cookie is a valid legacy signed token for this user.  Moreover
no call (in particular no token-hash or fingerprint mismatch) ever changes any
device row's `revoked_at`. -/
theorem trusted_cookie_validation_spec
    (c : Codec) (flags : Flags) (now : Nat) (cookie ua ip : Option String)
    (userId : String) (role : Option Role) (db : DB) :
    ((validateTrustedCookie c flags now cookie ua ip userId role db).1 = true →
      (∃ id token rec,
        parseIdToken (cookie.getD "") = some (id, token) ∧
        db.trusted_devices.find? (fun d => d.id == id) = some rec ∧
        rec.user_id = userId ∧ rec.revoked_at = none ∧ now < rec.expires_at ∧
        sha256 token = rec.token_hash ∧
        ((role = some Role.admin ∨ flags.trustedDeviceFpEnforceAll = true) →
          ∀ fp, rec.fingerprint = some fp →
            sha256 ((ua.getD "") ++ "|" ++ c.ipPfx ip) = fp)) ∨
      (∃ p, parseIdToken (cookie.getD "") = none ∧
        c.legacyVerify (cookie.getD "") = some p ∧ p.sub = userId ∧ now < p.exp)) ∧
    (validateTrustedCookie c flags now cookie ua ip userId role db).2.trusted_devices.map
        (fun d => (d.id, d.revoked_at)) =
      db.trusted_devices.map (fun d => (d.id, d.revoked_at)) := by
  constructor
  · intro h
    unfold validateTrustedCookie at h
    dsimp only at h
    by_cases h0 : (cookie.getD "" == "") = true
    · rw [if_pos h0] at h
      exact absurd h (by simp)
    · rw [if_neg h0] at h
      cases hparse : parseIdToken (cookie.getD "") with
      | some pr =>
        obtain ⟨id, token⟩ := pr
        simp only [hparse] at h
        cases hfindd : db.trusted_devices.find? (fun d => d.id == id) with
        | none => simp [hfindd] at h
        | some rec =>
          simp only [hfindd] at h
          by_cases h1 : (rec.user_id != userId) = true
          · simp [h1] at h
          · rw [if_neg (by simpa using h1)] at h
            by_cases h2 : rec.revoked_at.isSome = true
            · simp [h2] at h
            · rw [if_neg (by simpa using h2)] at h
              by_cases h3 : rec.expires_at ≤ now
              · simp [h3] at h
              · rw [if_neg h3] at h
                by_cases h4 : (sha256 token != rec.token_hash) = true
                · simp [h4] at h
                · rw [if_neg (by simpa using h4)] at h
                  left
                  refine ⟨id, token, rec, rfl, hfindd, by simpa using h1,
                    by simpa using h2, by omega, by simpa using h4, ?_⟩
                  intro hrole fp hfp
                  by_contra hne
                  have hneed : (role == some Role.admin ||
                      flags.trustedDeviceFpEnforceAll) = true := by
                    rcases hrole with hr | hr
                    · simp [hr]
                    · simp [hr]
                  rw [hfp] at h
                  simp only [hneed, Bool.true_and] at h
                  have hfail : (sha256 ((ua.getD "") ++ "|" ++ c.ipPfx ip) != fp) = true := by
                    simpa using hne
                  simp [hfail] at h
      | none =>
        simp only [hparse] at h
        cases hleg : c.legacyVerify (cookie.getD "") with
        | none => simp [hleg] at h
        | some p =>
          simp only [hleg] at h
          by_cases hok : (p.sub == userId && decide (now < p.exp)) = true
          · right
            refine ⟨p, rfl, rfl, ?_, ?_⟩
            · have := hok
              simp only [Bool.and_eq_true, beq_iff_eq, decide_eq_true_eq] at this
              exact this.1
            · have := hok
              simp only [Bool.and_eq_true, beq_iff_eq, decide_eq_true_eq] at this
              exact this.2
          · simp [hok] at h
  · unfold validateTrustedCookie
    dsimp only
    repeat' split
    all_goals try rfl
    all_goals exact touch_preserves_revoked db.trusted_devices _ now

/-- Witness for the C7 theorem: device `D7` of `mDB` validates successfully
with cookie `D7.devtok7`, and the call leaves every `revoked_at` unchanged. -/
theorem trusted_cookie_validation_spec_witness :
    ((∃ id token rec,
        parseIdToken ((some "D7.devtok7").getD "") = some (id, token) ∧
        mDB.trusted_devices.find? (fun d => d.id == id) = some rec ∧
        rec.user_id = "U2" ∧ rec.revoked_at = none ∧ 100 < rec.expires_at ∧
        sha256 token = rec.token_hash ∧
        ((some Role.user = some Role.admin ∨ testFlags.trustedDeviceFpEnforceAll = true) →
          ∀ fp, rec.fingerprint = some fp →
            sha256 (((some "ua7").getD "") ++ "|" ++ testCodec.ipPfx (some "ip7")) = fp)) ∨
      (∃ p, parseIdToken ((some "D7.devtok7").getD "") = none ∧
        testCodec.legacyVerify ((some "D7.devtok7").getD "") = some p ∧
        p.sub = "U2" ∧ 100 < p.exp)) ∧
    (validateTrustedCookie testCodec testFlags 100 (some "D7.devtok7") (some "ua7") (some "ip7")
        "U2" (some Role.user) mDB).2.trusted_devices.map (fun d => (d.id, d.revoked_at)) =
      mDB.trusted_devices.map (fun d => (d.id, d.revoked_at)) := by
  have h := trusted_cookie_validation_spec testCodec testFlags 100 (some "D7.devtok7")
    (some "ua7") (some "ip7") "U2" (some Role.user) mDB
  exact ⟨h.1 (by decide), h.2⟩

/-- C8: when the prior factor checks out but the proposed new password
verifies against the user's current hash, `changePassword` and
`resetPasswordWithToken` both fail with `PasswordReuse` and perform no
mutation at all: the store (user rows, sessions, trusted devices, reset
tokens) is returned unchanged. -/
theorem password_reuse_no_mutation
    (now : Nat) (uid oldPw newPw : String) (db : DB) (u : UserRow)
    (tok newPw2 : String) (db2 : DB) (r : PasswordResetRow) (u2 : UserRow)
    (hfu : db.users.find? (fun x => x.id == uid) = some u)
    (hnz : u.password_hash ≠ "")
    (hold : argon2Verify u.password_hash oldPw = true)
    (hreuse : argon2Verify u.password_hash newPw = true)
    (hfr : db2.password_resets.find?
      (fun x => x.token_hash == sha256 tok && x.used_at == none && now < x.expires_at) = some r)
    (hfu2 : db2.users.find? (fun x => x.id == r.user_id) = some u2)
    (hnz2 : u2.password_hash ≠ "")
    (hreuse2 : argon2Verify u2.password_hash newPw2 = true) :
    changePassword now uid oldPw newPw db = (.error .PasswordReuse, db) ∧
    resetPasswordWithToken now tok newPw2 db2 = (.error .PasswordReuse, db2) := by
  constructor
  · simp [changePassword, hfu, hnz, hold, hreuse]
  · simp [resetPasswordWithToken, hfr, hfu2, hnz2, hreuse2]

/-- Witness for the C8 theorem: re-submitting the current password at `pDB`. -/
theorem password_reuse_no_mutation_witness :
    changePassword 100 "U4" "old-password-1" "old-password-1" pDB =
      (.error .PasswordReuse, pDB) ∧
    resetPasswordWithToken 100 "rsttok" "old-password-1" pDB =
      (.error .PasswordReuse, pDB) :=
  password_reuse_no_mutation 100 "U4" "old-password-1" "old-password-1" pDB pUser
    "rsttok" "old-password-1" pDB
    { id := 1, user_id := "U4", token_hash := sha256 "rsttok", expires_at := 1000,
      used_at := none }
    pUser (by decide) (by decide) (by decide) (by decide) (by decide) (by decide) (by decide)
    (by decide)

/-- C9: when every backup-code row matching the submitted code's hash has
`used_at` set (the code was already consumed by a login verification or an
MFA disable) and the code does not pass the TOTP branch, `verifyMfaLogin` on
a live challenge fails with `InvalidCode` and leaves the store completely
unchanged — in particular the challenge stays unconsumed, so the caller may
retry until the challenge's own expiry. -/
theorem backup_code_single_use
    (c : Codec) (env : Env) (now : Nat) (sid devId devToken challengeId code : String)
    (rememberDevice : Bool) (ua ip : Option String) (db : DB)
    (ch : MfaLoginChallengeRow) (u : UserRow)
    (hch : db.mfa_login_challenges.find? (fun x => x.id == challengeId) = some ch)
    (hu : db.users.find? (fun x => x.id == ch.user_id) = some u)
    (hcon : ch.consumed_at = none)
    (hexp : ¬ ch.expires_at < now)
    (ht : totpPath c code u.mfa_secret_enc = .ok false)
    (hused : ∀ b ∈ db.backup_codes, b.user_id = u.id →
      b.code_hash = backupHash (trimStr (upperStr code)) → b.used_at ≠ none) :
    verifyMfaLogin c env now sid devId devToken challengeId code rememberDevice ua ip db =
      (.error .InvalidCode, db) := by
  have hnone : findUnusedBackupCode db.backup_codes u.id
      (backupHash (trimStr (upperStr code))) = none := by
    unfold findUnusedBackupCode
    rw [List.find?_eq_none]
    intro b hb hp
    simp only [Bool.and_eq_true, beq_iff_eq] at hp
    exact hused b hb hp.1.1 hp.1.2 hp.2
  simp [verifyMfaLogin, hch, hu, hcon, hexp, ht, hnone]

/-- Like `mDB`, but the backup code was already consumed at time 50. -/
def uDB : DB where
  users := [mUser]
  sessions := mDB.sessions
  trusted_devices := mDB.trusted_devices
  backup_codes := [{ id := 1, user_id := "U2", code_hash := backupHash "AAAABBBB",
                     used_at := some 50 }]
  mfa_login_challenges := mDB.mfa_login_challenges
  password_resets := []

/-- Witness for the C9 theorem: re-presenting the consumed code `AAAABBBB`. -/
theorem backup_code_single_use_witness :
    verifyMfaLogin testCodec testEnv 100 "S8" "D8" "dt8" "CH0000000001" "AAAABBBB" false
        none none uDB = (.error .InvalidCode, uDB) :=
  backup_code_single_use testCodec testEnv 100 "S8" "D8" "dt8" "CH0000000001" "AAAABBBB"
    false none none uDB
    { id := "CH0000000001", user_id := "U2", remember := true, user_agent := none,
      ip := none, expires_at := 500, consumed_at := none }
    mUser (by decide) (by decide) (by decide) (by decide) (by decide) (by decide)

/-- C10: the Authorization Gate's refresh-cookie fallback is not read-only:
when the cookie decodes to an existing session row whose stored hash differs
from the presented token's hash, `authenticateViaRefreshCookie` sets that
row's `revoked_at` before reporting unauthenticated — even though no rotation
was requested, and even if the row was already revoked or expired.  In every
other case (no cookie, decode failure, row absent, matching hash but
revoked/expired row, missing user, and success) the session store is left
unchanged. -/
theorem refresh_cookie_fallback_side_effect
    (c : Codec) (now : Nat) (token : String) (db : DB) :
    (authenticateViaRefreshCookie c now none db = (.ok none, db)) ∧
    (c.verifyRefresh token = none →
      authenticateViaRefreshCookie c now (some token) db = (.error (), db)) ∧
    (∀ cl, c.verifyRefresh token = some cl →
      db.sessions.find? (fun r => r.id == cl.sid && r.user_id == cl.sub) = none →
      authenticateViaRefreshCookie c now (some token) db = (.ok none, db)) ∧
    (∀ cl s, c.verifyRefresh token = some cl →
      db.sessions.find? (fun r => r.id == cl.sid && r.user_id == cl.sub) = some s →
      sha256 token ≠ s.refresh_hash →
      authenticateViaRefreshCookie c now (some token) db =
        (.ok none, { db with sessions := revokeSessionById db.sessions cl.sid now })) ∧
    (∀ cl s, c.verifyRefresh token = some cl →
      db.sessions.find? (fun r => r.id == cl.sid && r.user_id == cl.sub) = some s →
      sha256 token = s.refresh_hash →
      (s.revoked_at.isSome = true ∨ s.expires_at < now) →
      authenticateViaRefreshCookie c now (some token) db = (.ok none, db)) ∧
    (∀ cl s, c.verifyRefresh token = some cl →
      db.sessions.find? (fun r => r.id == cl.sid && r.user_id == cl.sub) = some s →
      sha256 token = s.refresh_hash → s.revoked_at = none → now ≤ s.expires_at →
      db.users.find? (fun x => x.id == cl.sub) = none →
      authenticateViaRefreshCookie c now (some token) db = (.ok none, db)) ∧
    (∀ cl s u, c.verifyRefresh token = some cl →
      db.sessions.find? (fun r => r.id == cl.sid && r.user_id == cl.sub) = some s →
      sha256 token = s.refresh_hash → s.revoked_at = none → now ≤ s.expires_at →
      db.users.find? (fun x => x.id == cl.sub) = some u →
      authenticateViaRefreshCookie c now (some token) db =
        (.ok (some { id := cl.sub, role := u.role }), db)) := by
  refine ⟨?_, ?_, ?_, ?_, ?_, ?_, ?_⟩
  · simp [authenticateViaRefreshCookie]
  · intro hdec
    simp [authenticateViaRefreshCookie, hdec]
  · intro cl hdec hfind
    simp [authenticateViaRefreshCookie, hdec, hfind]
  · intro cl s hdec hfind hne
    simp [authenticateViaRefreshCookie, hdec, hfind, hne]
  · intro cl s hdec hfind heq hbad
    rcases hbad with hrev | hexp
    · simp [authenticateViaRefreshCookie, hdec, hfind, heq, hrev]
    · simp [authenticateViaRefreshCookie, hdec, hfind, heq, hexp]
  · intro cl s hdec hfind heq hrev hle huser
    simp [authenticateViaRefreshCookie, hdec, hfind, heq, hrev, Nat.not_lt.mpr hle, huser]
  · intro cl s u hdec hfind heq hrev hle huser
    simp [authenticateViaRefreshCookie, hdec, hfind, heq, hrev, Nat.not_lt.mpr hle, huser]

/-- Witness for the C10 theorem: presenting `stolen:U2:S7`, whose hash differs
from session `S7`'s stored hash, revokes `S7` as a side effect. -/
theorem refresh_cookie_fallback_side_effect_witness :
    authenticateViaRefreshCookie testCodec 100 (some "stolen:U2:S7") mDB =
      (.ok none, { mDB with sessions := revokeSessionById mDB.sessions "S7" 100 }) :=
  ((refresh_cookie_fallback_side_effect testCodec 100 "stolen:U2:S7" mDB).2.2.2.1)
    { sub := "U2", sid := "S7" }
    { id := "S7", user_id := "U2", refresh_hash := sha256 "tok:U2:S7", user_agent := none,
      ip := none, remember := false, expires_at := 9000, revoked_at := none,
      replaced_by := none }
    (by decide) (by decide) (by decide)
